import Mathlib

/-!
Shallow embedding of the ASC-Scheduler schedule validation service
(src/backend/app/services/schedule_validator.py), together with the rows of
the data model it reads (src/backend/app/db/models.py).

Modelling conventions:
* Timestamps are integers counted in minutes from an arbitrary epoch.  Python
  timezone-aware datetimes form a discrete linear order (microsecond
  resolution); every quantity the validator computes with (buffers, minimum
  separations, the 30-minute search step, the search horizon) is expressed in
  minutes, so integer minutes capture the order and arithmetic the code uses.
  Python computes `total_seconds() / 60` with float division; on this model
  the same quantity is the exact integer difference of the two timestamps.
* The SQLAlchemy `Session` is modelled as the list of `PassSchedule` rows
  (plus the list of `Satellite` rows where the code queries it); `query(...)
  .filter(...).all()` is `List.filter`, `query(...).order_by(start_time)` is
  a sort by `start_time` (SQL fixes no order among rows with equal keys; see
  `isOrderByStart`), `first()` is `List.find?`.
* `datetime.now(timezone.utc)` is an explicit `now` argument.
* Python exceptions are modelled explicitly at the places the source can
  raise or catch them: `timedelta(minutes=x)` raises ``TypeError`` when `x`
  is a string, which is why `conflict_window_minutes` is embedded as a sum
  type `MinutesArg` (the module passes the *string*
  `DEFAULT_PASSES_PER_SATELLITE` at one call site); repository failures of
  `optimize_schedule` at the initial load and the final `db.commit()` are
  failure-injection booleans, with `db.rollback()` restoring the pre-sweep
  row set, so the rolled-back result carries the original list of rows; the
  third repository-failure path — a failing query inside a per-reservation
  conflict check mid-sweep, which the detector swallows into conflict data —
  is modelled by `check_temporal_conflicts_query_failure` and
  `optimize_schedule_with_query_failures`.
-/

namespace ASCScheduler

/-- Row of `app.db.models.PassSchedule` (src/backend/app/db/models.py,
lines 42-73): primary key `pass_id`, foreign key `satellite_norad_id`,
`ground_station`, the two timestamps and a `status` string. -/
structure PassSchedule where
  pass_id : Int
  satellite_norad_id : Int
  ground_station : String
  start_time : Int
  end_time : Int
  status : String
deriving Repr, DecidableEq

/-- Row of `app.db.models.Satellite` (src/backend/app/db/models.py,
lines 6-16); only the primary key `norad_id` and the name are relevant to the
validator. -/
structure Satellite where
  norad_id : Int
  name : String
deriving Repr, DecidableEq

namespace ConflictType

/-- `ConflictType.TEMPORAL_OVERLAP` (schedule_validator.py line 30). -/
def TEMPORAL_OVERLAP : String := "temporal_overlap"

/-- `ConflictType.GROUND_STATION_CONFLICT` (line 31). -/
def GROUND_STATION_CONFLICT : String := "ground_station_conflict"

/-- `ConflictType.SATELLITE_ACCESS_CONFLICT` (line 32). -/
def SATELLITE_ACCESS_CONFLICT : String := "satellite_access_conflict"

/-- `ConflictType.MINIMUM_SEPARATION_VIOLATION` (line 33). -/
def MINIMUM_SEPARATION_VIOLATION : String := "minimum_separation_violation"

end ConflictType

/-- `ScheduleConflict` (schedule_validator.py lines 36-55).  The Python
constructor defaults (`conflicting_pass_id=None`, `suggested_time=None`,
`severity="high"`) are written out explicitly at every construction site. -/
structure ScheduleConflict where
  conflict_type : String
  description : String
  conflicting_pass_id : Option Int
  suggested_time : Option Int
  severity : String
deriving Repr, DecidableEq

/-- `DEFAULT_PASSES_PER_SATELLITE = os.getenv("DEFAULT_PASSES_PER_SATELLITE",
"5")` (schedule_validator.py line 26).  `os.getenv` returns a *string* (the
default given is the string literal "5"), and the module never converts it to
an integer. -/
def DEFAULT_PASSES_PER_SATELLITE : String := "5"

/-- The Python parameter `conflict_window_minutes` is annotated `int`, but the
call site in `find_next_available_slot` (line 175) passes the string
`DEFAULT_PASSES_PER_SATELLITE`.  `timedelta(minutes=<str>)` raises
``TypeError``, so the argument is embedded as an int-or-string sum. -/
inductive MinutesArg where
  | int (n : Int)
  | str (s : String)
deriving Repr, DecidableEq

/-- The conflict built by the `except` clause of `check_temporal_conflicts`
(lines 127-133): a single high-severity `temporal_overlap` conflict wrapping
the exception text.  For the reachable exception (the `timedelta` TypeError on
a string argument) the wrapped text is fixed. -/
def errorConflict : ScheduleConflict :=
  { conflict_type := ConflictType.TEMPORAL_OVERLAP
    description := "Error checking conflicts: unsupported type for timedelta minutes component: str"
    conflicting_pass_id := none
    suggested_time := none
    severity := "high" }

/-- The `ground_station_conflict` built at lines 100-106.  The Python
f-string rendering of the two datetimes is abstracted to `toString` of the
integer timestamps (no claim inspects description text). -/
def gsConflict (p : PassSchedule) (new_ground_station : String) : ScheduleConflict :=
  { conflict_type := ConflictType.GROUND_STATION_CONFLICT
    description := "Ground station " ++ new_ground_station ++ " is already scheduled for pass "
      ++ toString p.pass_id ++ " from " ++ toString p.start_time ++ " to "
      ++ toString p.end_time
    conflicting_pass_id := some p.pass_id
    suggested_time := none
    severity := "high" }

/-- The `minimum_separation_violation` built at lines 116-122.  Python prints
the separation with `:.1f`; the numeric text is abstracted to `toString` of
the exact separation (no claim inspects description text). -/
def sepConflict (p : PassSchedule) (new_pass_start : Int) (cw : Int) : ScheduleConflict :=
  { conflict_type := ConflictType.MINIMUM_SEPARATION_VIOLATION
    description := "Pass " ++ toString p.pass_id ++ " is only "
      ++ toString |p.start_time - new_pass_start|
      ++ " minutes apart from the new pass, violating minimum separation of "
      ++ toString cw ++ " minutes"
    conflicting_pass_id := some p.pass_id
    suggested_time := none
    severity := "medium" }

/-- `check_temporal_conflicts` (schedule_validator.py lines 58-133).

With an integer buffer: widen the candidate window by the buffer on both
sides (lines 84-86), take every stored pass with
`start_time < window_end AND end_time > window_start` (lines 90-95; note: no
exclusion of any pass id), and for each such pass emit a high
`ground_station_conflict` when the station matches (lines 99-106) and a
medium `minimum_separation_violation` when the two start times are closer
than the buffer (lines 113-122), in that order.

With a string buffer: `timedelta(minutes=...)` at line 84 raises
``TypeError`` before any query runs; the `except` clause (lines 127-133)
returns the single high-severity error conflict. -/
def check_temporal_conflicts (new_pass_start new_pass_end : Int)
    (new_ground_station : String) (new_satellite_norad_id : Int)
    (db : List PassSchedule) (conflict_window_minutes : MinutesArg) :
    List ScheduleConflict :=
  match conflict_window_minutes with
  | MinutesArg.str _ => [errorConflict]
  | MinutesArg.int cw =>
      let window_start := new_pass_start - cw
      let window_end := new_pass_end + cw
      let overlapping_passes := db.filter (fun p =>
        decide (p.start_time < window_end ∧ window_start < p.end_time))
      overlapping_passes.flatMap (fun p =>
        (if p.ground_station = new_ground_station then
          [gsConflict p new_ground_station]
        else []) ++
        (if |p.start_time - new_pass_start| < cw then
          [sepConflict p new_pass_start cw]
        else []))

/-- The `while` loop of `find_next_available_slot` (lines 161-185), with the
remaining iteration budget (`max_search_iterations - iteration`) as explicit
fuel.  Each round checks the candidate `[t, t + duration)` with
`conflict_window_minutes = DEFAULT_PASSES_PER_SATELLITE` — the module-level
*string* — accepts it only when the conflict list is empty (`if not
conflicts`, line 179), and otherwise advances by 30 minutes. -/
def findSlotLoop (ground_station : String) (satellite_norad_id : Int)
    (db : List PassSchedule) (requested_duration_minutes : Int)
    (search_end : Int) : Int → Nat → Option Int
  | _, 0 => none
  | current_time, fuel + 1 =>
      if current_time < search_end then
        let proposed_end := current_time + requested_duration_minutes
        let conflicts := check_temporal_conflicts current_time proposed_end
          ground_station satellite_norad_id db
          (MinutesArg.str DEFAULT_PASSES_PER_SATELLITE)
        if conflicts = [] then some current_time
        else findSlotLoop ground_station satellite_norad_id db
          requested_duration_minutes search_end (current_time + 30) fuel
      else none

/-- `find_next_available_slot` (schedule_validator.py lines 136-192).
Defaults at the Python signature: `search_hours_ahead = 168`,
`max_search_iterations = 50`; callers of the model pass them explicitly. -/
def find_next_available_slot (requested_start : Int)
    (requested_duration_minutes : Int) (ground_station : String)
    (satellite_norad_id : Int) (db : List PassSchedule)
    (search_hours_ahead : Int) (max_search_iterations : Nat) : Option Int :=
  findSlotLoop ground_station satellite_norad_id db requested_duration_minutes
    (requested_start + 60 * search_hours_ahead) requested_start
    max_search_iterations

/-- The dictionary returned by `optimize_schedule`: either the success record
of lines 246-251 (`total_passes`, `conflicts_resolved`,
`passes_rescheduled`, `optimization_status`) or the error record of line 256. -/
inductive OptimizeReport where
  | ok (total_passes : Nat) (conflicts_resolved : Nat) (passes_rescheduled : Nat)
      (optimization_status : String)
  | error (msg : String)
deriving Repr, DecidableEq

/-- Status string of the success record (line 250). -/
def optimizeStatusCompleted : String := "completed"

/-- Message of the error record (line 256). -/
def optimizeFailedMsg : String := "Schedule optimization failed"

/-- In-place mutation `pass_schedule.start_time = ...; pass_schedule.end_time
= ...` (lines 236-237) seen through the session: the row with that primary
key now carries the new window. -/
def updatePass (state : List PassSchedule) (pass_id : Int) (new_start new_end : Int) :
    List PassSchedule :=
  state.map (fun p =>
    if p.pass_id = pass_id then
      { p with start_time := new_start, end_time := new_end }
    else p)

/-- One iteration of the optimizer loop (lines 212-239) over the accumulator
(current session row set, `rescheduled_passes` counter): re-check the pass
against the session with the *default* integer buffer 10, and if any conflict
is reported, ask `find_next_available_slot` (which always fails, see
`find_next_available_slot_eq_none`); only a found slot different from the
current start mutates the row and bumps the counter.  `conflicts_resolved`
(line 209) is initialised to 0 and never incremented anywhere in the loop. -/
def optimizeStep (acc : List PassSchedule × Nat) (pass_schedule : PassSchedule) :
    List PassSchedule × Nat :=
  let conflicts := check_temporal_conflicts pass_schedule.start_time
    pass_schedule.end_time pass_schedule.ground_station
    pass_schedule.satellite_norad_id acc.1 (MinutesArg.int 10)
  if conflicts = [] then acc
  else
    let duration_minutes := pass_schedule.end_time - pass_schedule.start_time
    match find_next_available_slot pass_schedule.start_time duration_minutes
      pass_schedule.ground_station pass_schedule.satellite_norad_id acc.1 168 50 with
    | none => acc
    | some new_start_time =>
        if new_start_time ≠ pass_schedule.start_time then
          (updatePass acc.1 pass_schedule.pass_id new_start_time
            (new_start_time + duration_minutes), acc.2 + 1)
        else acc

/-- Comparison used by `order_by(PassSchedule.start_time)` (line 207). -/
def startLE (a b : PassSchedule) : Prop := a.start_time ≤ b.start_time

instance : DecidableRel startLE :=
  fun a b => inferInstanceAs (Decidable (a.start_time ≤ b.start_time))

instance : IsTotal PassSchedule startLE :=
  ⟨fun a b => Int.le_total a.start_time b.start_time⟩

instance : IsTrans PassSchedule startLE :=
  ⟨fun _ _ _ hab hbc => le_trans hab hbc⟩

/-- One admissible realisation of `query(PassSchedule)
.order_by(PassSchedule.start_time).all()` (line 207): a sort by `start_time`.
SQL prescribes only that the result is some permutation of the rows that is
nondecreasing in the single sort key (see `isOrderByStart`); it fixes no
order among rows with equal `start_time`. -/
def sortByStart (db : List PassSchedule) : List PassSchedule :=
  List.insertionSort startLE db

/-- What `ORDER BY start_time` guarantees about a result sequence: it is a
permutation of the stored rows, nondecreasing in `start_time`.  Nothing more
is guaranteed; in particular ties may come back in any order. -/
def isOrderByStart (db result : List PassSchedule) : Prop :=
  result.Perm db ∧ result.Pairwise startLE

/-- `optimize_schedule` (schedule_validator.py lines 195-256).  The two
booleans inject repository failures at the two repository operations of the
sweep itself: the initial `db.query(...).all()` (line 207) and the final
`db.commit()` (line 242).  Either exception reaches the `except` clause
(lines 253-256), which calls `db.rollback()` — discarding every uncommitted
in-session mutation of the sweep, hence the original row set — and returns
the error record.  These are the only failures the optimizer's own handler
can see: a repository failure inside a per-reservation conflict check is
swallowed by the detector (lines 127-133) and never raises here; that third
mid-sweep failure path is modelled by
`optimize_schedule_with_query_failures` below. -/
def optimize_schedule (db : List PassSchedule) (load_fails commit_fails : Bool) :
    List PassSchedule × OptimizeReport :=
  if load_fails then (db, OptimizeReport.error optimizeFailedMsg)
  else
    let all_passes := sortByStart db
    let swept := all_passes.foldl optimizeStep (db, 0)
    if commit_fails then (db, OptimizeReport.error optimizeFailedMsg)
    else
      (swept.1,
        OptimizeReport.ok all_passes.length 0 swept.2 optimizeStatusCompleted)

/-- The conflict built by the `except` clause of `check_temporal_conflicts`
(lines 127-133) when the exception is a repository failure of the overlap
query at lines 90-95 (rather than the `timedelta` TypeError): the same single
high-severity `temporal_overlap` conflict shape, wrapping the repository
error text.  The failure is swallowed here and never propagates to the
caller. -/
def repositoryErrorConflict : ScheduleConflict :=
  { conflict_type := ConflictType.TEMPORAL_OVERLAP
    description := "Error checking conflicts: repository failure"
    conflicting_pass_id := none
    suggested_time := none
    severity := "high" }

/-- Model of `check_temporal_conflicts` with its full failure surface: the
`query_fails` flag injects a repository failure at the overlap query (lines
90-95).  Exceptions arise in source order: a string buffer raises at the
`timedelta` construction (line 84) before the query runs; otherwise a failing
query raises at line 90; either exception is caught by the `except` clause
(lines 127-133) and returned as one high-severity error conflict — conflict
data, not a propagated error.  With `query_fails = false` this is exactly
`check_temporal_conflicts`. -/
def check_temporal_conflicts_query_failure (query_fails : Bool)
    (new_pass_start new_pass_end : Int) (new_ground_station : String)
    (new_satellite_norad_id : Int) (db : List PassSchedule)
    (conflict_window_minutes : MinutesArg) : List ScheduleConflict :=
  match conflict_window_minutes with
  | MinutesArg.str _ => [errorConflict]
  | MinutesArg.int _ =>
      if query_fails then [repositoryErrorConflict]
      else check_temporal_conflicts new_pass_start new_pass_end
        new_ground_station new_satellite_norad_id db conflict_window_minutes

/-- One optimizer iteration (lines 212-239) over the extended failure model:
`query_fails` names (by primary key) the reservations whose per-reservation
conflict check suffers a repository failure at its query.  Such a failure is
converted inside the detector into a high-severity conflict (see
`check_temporal_conflicts_query_failure`), so this iteration sees a nonempty
conflict list and proceeds to the slot search exactly as for a detected
conflict; nothing reaches the optimizer's `except` clause. -/
def optimizeStepQF (query_fails : Int → Bool) (acc : List PassSchedule × Nat)
    (pass_schedule : PassSchedule) : List PassSchedule × Nat :=
  let conflicts := check_temporal_conflicts_query_failure
    (query_fails pass_schedule.pass_id) pass_schedule.start_time
    pass_schedule.end_time pass_schedule.ground_station
    pass_schedule.satellite_norad_id acc.1 (MinutesArg.int 10)
  if conflicts = [] then acc
  else
    let duration_minutes := pass_schedule.end_time - pass_schedule.start_time
    match find_next_available_slot pass_schedule.start_time duration_minutes
      pass_schedule.ground_station pass_schedule.satellite_norad_id acc.1 168 50 with
    | none => acc
    | some new_start_time =>
        if new_start_time ≠ pass_schedule.start_time then
          (updatePass acc.1 pass_schedule.pass_id new_start_time
            (new_start_time + duration_minutes), acc.2 + 1)
        else acc

/-- `optimize_schedule` (lines 195-256) over the full repository-failure
surface of the sweep.  Three distinct failure points exist in the source:
the initial `db.query(...).all()` (line 207) and the final `db.commit()`
(line 242), whose exceptions reach the optimizer's `except` clause (lines
253-256: rollback and the error record); and the per-reservation conflict
check queries run mid-sweep (line 214 reaching line 90), whose exceptions are
caught inside `check_temporal_conflicts` itself (lines 127-133), converted to
conflict data, and never abort the sweep — the run then still commits and
returns the success record.  `query_fails` names the reservations whose
mid-sweep check query fails.  With `query_fails = fun _ => false` this is
exactly `optimize_schedule` (see
`optimize_schedule_with_query_failures_no_failure`). -/
def optimize_schedule_with_query_failures (db : List PassSchedule)
    (load_fails : Bool) (query_fails : Int → Bool) (commit_fails : Bool) :
    List PassSchedule × OptimizeReport :=
  if load_fails then (db, OptimizeReport.error optimizeFailedMsg)
  else
    let all_passes := sortByStart db
    let swept := all_passes.foldl (optimizeStepQF query_fails) (db, 0)
    if commit_fails then (db, OptimizeReport.error optimizeFailedMsg)
    else
      (swept.1,
        OptimizeReport.ok all_passes.length 0 swept.2 optimizeStatusCompleted)

/-- Conflict returned when the satellite lookup fails (lines 282-287). -/
def satelliteNotFoundConflict (satellite_norad_id : Int) : ScheduleConflict :=
  { conflict_type := ConflictType.SATELLITE_ACCESS_CONFLICT
    description := "Satellite with NORAD ID " ++ toString satellite_norad_id
      ++ " not found in database"
    conflicting_pass_id := none
    suggested_time := none
    severity := "high" }

/-- Conflict returned when `start_time >= end_time` (lines 290-295). -/
def startAfterEndConflict : ScheduleConflict :=
  { conflict_type := ConflictType.TEMPORAL_OVERLAP
    description := "Start time must be before end time"
    conflicting_pass_id := none
    suggested_time := none
    severity := "high" }

/-- Conflict returned when the start is not strictly in the future
(lines 298-303). -/
def startNotFutureConflict : ScheduleConflict :=
  { conflict_type := ConflictType.TEMPORAL_OVERLAP
    description := "Start time must be in the future"
    conflicting_pass_id := none
    suggested_time := none
    severity := "high" }

/-- `validate_schedule_creation` (schedule_validator.py lines 259-326).
Checks run in source order: satellite existence (line 281), `start >= end`
(line 290), `start <= now` (line 298) — each an early return of `(False,
[one high conflict])` that never touches the pass table — then the full
conflict check with the default buffer; validity is `len(high) == 0`
(lines 315-316). -/
def validate_schedule_creation (satellite_norad_id : Int) (ground_station : String)
    (start_time end_time : Int) (db_satellites : List Satellite)
    (db : List PassSchedule) (now : Int) : Bool × List ScheduleConflict :=
  match db_satellites.find? (fun sat => decide (sat.norad_id = satellite_norad_id)) with
  | none => (false, [satelliteNotFoundConflict satellite_norad_id])
  | some _ =>
      if start_time ≥ end_time then (false, [startAfterEndConflict])
      else if start_time ≤ now then (false, [startNotFutureConflict])
      else
        let conflicts := check_temporal_conflicts start_time end_time
          ground_station satellite_norad_id db (MinutesArg.int 10)
        let high_severity_conflicts := conflicts.filter (fun c => c.severity == "high")
        (high_severity_conflicts.length == 0, conflicts)

/-! Shared lemmas about the embedded operations.  These carry the actual
proofs; each claim theorem below is derived from them (claim theorems are
never used in other proofs). -/

/-- With a string buffer, `check_temporal_conflicts` is the single
high-severity error conflict, whatever the inputs. -/
theorem check_temporal_conflicts_str (s e : Int) (gs : String) (sid : Int)
    (db : List PassSchedule) (txt : String) :
    check_temporal_conflicts s e gs sid db (MinutesArg.str txt) = [errorConflict] :=
  rfl

/-- The slot-search loop never succeeds: every candidate's conflict check is
run with the string buffer, hence returns the (nonempty) error conflict
list. -/
theorem findSlotLoop_eq_none (gs : String) (sid : Int) (db : List PassSchedule)
    (d se : Int) (fuel : Nat) :
    ∀ t : Int, findSlotLoop gs sid db d se t fuel = none := by
  induction fuel with
  | zero => intro t; rfl
  | succ n ih =>
      intro t
      unfold findSlotLoop
      split
      · simp only [check_temporal_conflicts_str]
        rw [if_neg (List.cons_ne_nil _ _)]
        exact ih (t + 30)
      · rfl

/-- `find_next_available_slot` returns `None` on every input. -/
theorem find_next_available_slot_eq_none (rs d : Int) (gs : String) (sid : Int)
    (db : List PassSchedule) (hours : Int) (iters : Nat) :
    find_next_available_slot rs d gs sid db hours iters = none :=
  findSlotLoop_eq_none gs sid db d (rs + 60 * hours) iters rs

/-- One optimizer iteration never changes the accumulator: either the pass is
conflict-free (untouched) or the slot search fails (untouched). -/
theorem optimizeStep_eq (acc : List PassSchedule × Nat) (p : PassSchedule) :
    optimizeStep acc p = acc := by
  unfold optimizeStep
  simp only [find_next_available_slot_eq_none, ite_self]

/-- The whole sweep leaves the session rows and the rescheduled counter
untouched. -/
theorem foldl_optimizeStep_eq (l : List PassSchedule)
    (acc : List PassSchedule × Nat) : l.foldl optimizeStep acc = acc := by
  induction l with
  | nil => rfl
  | cons p l ih => rw [List.foldl_cons, optimizeStep_eq, ih]

/-- A successful run of `optimize_schedule`: rows unchanged, report
`total_passes = |db|`, `conflicts_resolved = 0`, `passes_rescheduled = 0`,
status completed. -/
theorem optimize_schedule_success (db : List PassSchedule) :
    optimize_schedule db false false =
      (db, OptimizeReport.ok db.length 0 0 optimizeStatusCompleted) := by
  unfold optimize_schedule
  simp only [Bool.false_eq_true, if_false, foldl_optimizeStep_eq]
  rw [show (sortByStart db).length = db.length from
    (List.perm_insertionSort startLE db).length_eq]

/-- Membership characterisation of the integer-buffer conflict list: a
conflict is reported exactly for a stored pass inside the buffer-widened
window, either as that pass's station conflict or as its separation
conflict. -/
theorem mem_check_temporal_conflicts_int {c : ScheduleConflict}
    (s e : Int) (gs : String) (sid : Int) (db : List PassSchedule) (cw : Int) :
    c ∈ check_temporal_conflicts s e gs sid db (MinutesArg.int cw) ↔
      ∃ p ∈ db, (p.start_time < e + cw ∧ s - cw < p.end_time) ∧
        ((p.ground_station = gs ∧ c = gsConflict p gs) ∨
          (|p.start_time - s| < cw ∧ c = sepConflict p s cw)) := by
  unfold check_temporal_conflicts
  simp only [List.mem_flatMap, List.mem_filter, decide_eq_true_eq, List.mem_append]
  constructor
  · rintro ⟨p, ⟨hp, hw⟩, hc⟩
    refine ⟨p, hp, hw, ?_⟩
    rcases hc with hc | hc
    · split at hc
      · simp only [List.mem_singleton] at hc
        exact Or.inl ⟨by assumption, hc⟩
      · simp at hc
    · split at hc
      · simp only [List.mem_singleton] at hc
        exact Or.inr ⟨by assumption, hc⟩
      · simp at hc
  · rintro ⟨p, hp, hw, hc⟩
    refine ⟨p, ⟨hp, hw⟩, ?_⟩
    rcases hc with ⟨hgs, rfl⟩ | ⟨hsep, rfl⟩
    · exact Or.inl (by rw [if_pos hgs]; exact List.mem_singleton_self _)
    · exact Or.inr (by rw [if_pos hsep]; exact List.mem_singleton_self _)

/-- Claim C1 (confirmed): optimizer idempotence.  For every stored
reservation set — in particular every conflict-free one, and every set left
behind by a completed optimisation run — a successful `optimize_schedule` run
performs zero reschedules and returns every reservation with its
`start_time` and `end_time` unchanged (the row set comes back exactly as
stored), so a second run is a no-op as well. -/
theorem optimize_schedule_idempotent (db : List PassSchedule) :
    optimize_schedule db false false =
      (db, OptimizeReport.ok db.length 0 0 optimizeStatusCompleted) :=
  optimize_schedule_success db

/-- One extended-model optimizer iteration never changes the accumulator
either: a mid-sweep query failure only swaps one nonempty conflict list for
another, and the slot search still fails. -/
theorem optimizeStepQF_eq (query_fails : Int → Bool)
    (acc : List PassSchedule × Nat) (p : PassSchedule) :
    optimizeStepQF query_fails acc p = acc := by
  unfold optimizeStepQF
  simp only [find_next_available_slot_eq_none, ite_self]

/-- The extended-model sweep leaves the session rows and the rescheduled
counter untouched, whatever queries fail. -/
theorem foldl_optimizeStepQF_eq (query_fails : Int → Bool)
    (l : List PassSchedule) (acc : List PassSchedule × Nat) :
    l.foldl (optimizeStepQF query_fails) acc = acc := by
  induction l with
  | nil => rfl
  | cons p l ih => rw [List.foldl_cons, optimizeStepQF_eq, ih]

/-- A run whose only repository failures are mid-sweep check-query failures
still returns the success record: the failures are swallowed into conflict
data, the sweep continues to a successful commit, and the report says
completed. -/
theorem optimize_schedule_with_query_failures_success (db : List PassSchedule)
    (query_fails : Int → Bool) :
    optimize_schedule_with_query_failures db false query_fails false =
      (db, OptimizeReport.ok db.length 0 0 optimizeStatusCompleted) := by
  unfold optimize_schedule_with_query_failures
  simp only [Bool.false_eq_true, if_false, foldl_optimizeStepQF_eq]
  rw [show (sortByStart db).length = db.length from
    (List.perm_insertionSort startLE db).length_eq]

/-- With no mid-sweep query failure the extended model coincides with
`optimize_schedule` on every input. -/
theorem optimize_schedule_with_query_failures_no_failure
    (db : List PassSchedule) (load_fails commit_fails : Bool) :
    optimize_schedule_with_query_failures db load_fails (fun _ => false)
        commit_fails =
      optimize_schedule db load_fails commit_fails := by
  cases load_fails
  · cases commit_fails
    · rw [optimize_schedule_with_query_failures_success,
        optimize_schedule_success]
    · rfl
  · rfl

/-- Claim C9 (corrected, counterexample): a repository failure occurring
mid-sweep — during the per-reservation conflict check of the stored pass 8 —
is converted by the detector's own exception handler into a high-severity
conflict (first two conjuncts), and the optimization run then returns the
SUCCESS record `ok 1 0 0 completed`, not an optimization-failure outcome,
contradicting the claim's conclusion for that failure. -/
theorem mid_sweep_repository_failure_reports_success_cex :
    check_temporal_conflicts_query_failure true 200 230 "GS3" 300
        [⟨8, 300, "GS3", 200, 230, "scheduled"⟩] (MinutesArg.int 10) =
      [repositoryErrorConflict] ∧
    repositoryErrorConflict.severity = "high" ∧
    optimize_schedule_with_query_failures
        [⟨8, 300, "GS3", 200, 230, "scheduled"⟩] false (fun _ => true) false =
      ([⟨8, 300, "GS3", 200, 230, "scheduled"⟩],
        OptimizeReport.ok 1 0 0 optimizeStatusCompleted) :=
  ⟨rfl, rfl,
    optimize_schedule_with_query_failures_success
      [⟨8, 300, "GS3", 200, 230, "scheduled"⟩] (fun _ => true)⟩

/-- Claim C9 (amended): only repository failures at the sweep's own two
repository operations — the initial load and the final commit — reach the
optimizer's handler; for those, every mutation made during the sweep is
rolled back (the stored rows are returned unchanged, no reservation retains
a partially applied window) and the run returns the optimization-failure
record instead of a success status.  A repository failure during a
per-reservation conflict check mid-sweep, by contrast, is swallowed by the
detector into a high-severity conflict; the sweep continues, the rows are
likewise unchanged, and the run returns the success (completed) report. -/
theorem optimize_schedule_failure_surface :
    (∀ (db : List PassSchedule) (load_fails commit_fails : Bool),
      load_fails = true ∨ commit_fails = true →
        optimize_schedule db load_fails commit_fails =
          (db, OptimizeReport.error optimizeFailedMsg)) ∧
    (∀ (db : List PassSchedule) (query_fails : Int → Bool),
      optimize_schedule_with_query_failures db false query_fails false =
        (db, OptimizeReport.ok db.length 0 0 optimizeStatusCompleted)) := by
  constructor
  · intro db load_fails commit_fails h
    rcases h with h | h <;> subst h
    · rfl
    · cases load_fails
      · rfl
      · rfl
  · intro db query_fails
    exact optimize_schedule_with_query_failures_success db query_fails

/-- Witness for `optimize_schedule_failure_surface`: a one-row store, once
with a commit failure (error record, rows unchanged) and once with every
mid-sweep check query failing (success record, rows unchanged). -/
theorem optimize_schedule_failure_surface_witness :
    optimize_schedule [⟨3, 100, "GS1", 0, 30, "scheduled"⟩] false true =
      ([⟨3, 100, "GS1", 0, 30, "scheduled"⟩],
        OptimizeReport.error optimizeFailedMsg) ∧
    optimize_schedule_with_query_failures
        [⟨3, 100, "GS1", 0, 30, "scheduled"⟩] false (fun _ => true) false =
      ([⟨3, 100, "GS1", 0, 30, "scheduled"⟩],
        OptimizeReport.ok 1 0 0 optimizeStatusCompleted) :=
  ⟨optimize_schedule_failure_surface.1
      [⟨3, 100, "GS1", 0, 30, "scheduled"⟩] false true (Or.inr rfl),
    optimize_schedule_failure_surface.2
      [⟨3, 100, "GS1", 0, 30, "scheduled"⟩] (fun _ => true)⟩

/-- Claim C10 (confirmed): `find_next_available_slot` passes the module-level
environment value `DEFAULT_PASSES_PER_SATELLITE` — a string, never converted
to an integer — as `conflict_window_minutes`; there `timedelta(minutes=...)`
raises and the exception is converted to a single high-severity error
conflict, so every candidate slot of every search is reported as conflicting,
`find_next_available_slot` returns none for every input (an empty reservation
set included), and consequently the optimizer never reschedules any
reservation. -/
theorem default_passes_env_string_poisons_slot_search :
    (∀ (s e : Int) (gs : String) (sid : Int) (db : List PassSchedule),
      check_temporal_conflicts s e gs sid db
          (MinutesArg.str DEFAULT_PASSES_PER_SATELLITE) = [errorConflict] ∧
        errorConflict.severity = "high") ∧
    (∀ (rs d : Int) (gs : String) (sid : Int) (db : List PassSchedule)
        (hours : Int) (iters : Nat),
      find_next_available_slot rs d gs sid db hours iters = none) ∧
    (∀ db : List PassSchedule,
      (optimize_schedule db false false).1 = db ∧
        (optimize_schedule db false false).2 =
          OptimizeReport.ok db.length 0 0 optimizeStatusCompleted) := by
  refine ⟨fun s e gs sid db => ⟨check_temporal_conflicts_str s e gs sid db _, rfl⟩,
    fun rs d gs sid db hours iters =>
      find_next_available_slot_eq_none rs d gs sid db hours iters,
    fun db => ?_⟩
  rw [optimize_schedule_success]
  exact ⟨rfl, rfl⟩

/-- Claim C4 (confirmed): the slot finder examines candidate windows
`[t, t + duration)` from `desired_start` in fixed 30-minute steps, within the
horizon and iteration bounds.  Both clauses of the claim hold at every input
because every candidate's conflict check carries a high-severity conflict
(the error conflict produced by the string buffer it is invoked with): the
finder never returns a start time whose check reports a high-severity
conflict — it returns none on every input — and "returns none exactly when
every candidate has a high-severity conflict" holds with both sides true
everywhere; no reachable check result has only medium-severity conflicts. -/
theorem find_slot_none_and_every_candidate_high :
    (∀ (rs d : Int) (gs : String) (sid : Int) (db : List PassSchedule)
        (hours : Int) (iters : Nat),
      find_next_available_slot rs d gs sid db hours iters = none) ∧
    (∀ (t e : Int) (gs : String) (sid : Int) (db : List PassSchedule),
      ∃ c ∈ check_temporal_conflicts t e gs sid db
          (MinutesArg.str DEFAULT_PASSES_PER_SATELLITE),
        c.severity = "high") := by
  refine ⟨fun rs d gs sid db hours iters =>
    find_next_available_slot_eq_none rs d gs sid db hours iters,
    fun t e gs sid db => ⟨errorConflict, ?_, rfl⟩⟩
  rw [check_temporal_conflicts_str]
  exact List.mem_singleton_self _

/-- Claim C2 (code_bug, failing input): the overlap query of
`check_temporal_conflicts` (lines 90-95) has no exclusion of any pass
identifier, so re-validating a stored reservation — exactly what the
optimizer does for each reservation — reports the reservation as conflicting
with itself: pass 1 collides with pass 1 at its own station (high severity)
and violates minimum separation with its own start time. -/
theorem check_reports_self_conflict :
    ∃ c ∈ check_temporal_conflicts 0 30 "GS1" 100
        [⟨1, 100, "GS1", 0, 30, "scheduled"⟩] (MinutesArg.int 10),
      c.conflicting_pass_id = some 1 ∧ c.severity = "high" := by
  decide

/-- Claim C3 (corrected, counterexample): the stored pass `[600, 630)` and
the candidate `[630, 660)` at the same station touch (`e1 == s2`), yet with
the default 10-minute buffer `check_temporal_conflicts` DOES emit a
`ground_station_conflict` for the pair, because the station check applies to
every pass in the buffer-widened window, not only to truly overlapping
ones. -/
theorem touching_intervals_station_conflict_cex :
    ∃ c ∈ check_temporal_conflicts 630 660 "GS1" 200
        [⟨1, 100, "GS1", 600, 630, "scheduled"⟩] (MinutesArg.int 10),
      c.conflict_type = ConflictType.GROUND_STATION_CONFLICT := by
  decide

/-- Claim C3 (amended): for a stored pass `[p.start, p.end)` and a touching
candidate `[p.end, e2)` at the same station, a `ground_station_conflict` is
emitted if and only if the buffer is strictly positive; only with a zero
buffer does the half-open overlap test `s1 < e2 AND s2 < e1` govern and the
touching pair produce no station conflict. -/
theorem touching_intervals_station_conflict_iff_buffer_pos
    (p : PassSchedule) (e2 : Int) (sid : Int) (cw : Int)
    (hp : p.start_time < p.end_time) (he : p.end_time < e2) (hcw : 0 ≤ cw) :
    (∃ c ∈ check_temporal_conflicts p.end_time e2 p.ground_station sid [p]
        (MinutesArg.int cw),
      c.conflict_type = ConflictType.GROUND_STATION_CONFLICT) ↔ 0 < cw := by
  constructor
  · rintro ⟨c, hc, hty⟩
    rw [mem_check_temporal_conflicts_int] at hc
    obtain ⟨q, hq, ⟨h1, h2⟩, hor⟩ := hc
    simp only [List.mem_singleton] at hq
    subst hq
    omega
  · intro h
    refine ⟨gsConflict p p.ground_station, ?_, rfl⟩
    rw [mem_check_temporal_conflicts_int]
    exact ⟨p, List.mem_singleton_self p, ⟨by omega, by omega⟩, Or.inl ⟨rfl, rfl⟩⟩

/-- Witness for `touching_intervals_station_conflict_iff_buffer_pos` at the
pass `[600, 630)` and the touching candidate `[630, 660)` at station GS2 with
the default buffer 10. -/
theorem touching_intervals_station_conflict_iff_buffer_pos_witness :
    ∃ c ∈ check_temporal_conflicts 630 660 "GS2" 200
        [⟨4, 100, "GS2", 600, 630, "scheduled"⟩] (MinutesArg.int 10),
      c.conflict_type = ConflictType.GROUND_STATION_CONFLICT :=
  (touching_intervals_station_conflict_iff_buffer_pos
      ⟨4, 100, "GS2", 600, 630, "scheduled"⟩ 660 200 10
      (by decide) (by decide) (by decide)).mpr (by decide)

/-- Claim C7 (corrected, counterexample): the optimizer's query orders by
`start_time` only (line 207); the order-by contract `isOrderByStart` admits a
result sequence in which, of two reservations with equal start times, the
one with the HIGHER identifier comes first, so no lower-identifier-first
tie-break is guaranteed. -/
theorem order_by_start_no_id_tie_break_cex :
    isOrderByStart
        [⟨1, 100, "GS1", 0, 30, "scheduled"⟩, ⟨2, 200, "GS2", 0, 30, "scheduled"⟩]
        [⟨2, 200, "GS2", 0, 30, "scheduled"⟩, ⟨1, 100, "GS1", 0, 30, "scheduled"⟩] ∧
      ¬ List.Pairwise
          (fun a b : PassSchedule =>
            a.start_time = b.start_time → a.pass_id < b.pass_id)
          [⟨2, 200, "GS2", 0, 30, "scheduled"⟩,
            ⟨1, 100, "GS1", 0, 30, "scheduled"⟩] := by
  unfold isOrderByStart
  exact ⟨⟨by decide, by decide⟩, by decide⟩

/-- Claim C7 (amended): `optimize_schedule` processes the reservations in
ascending `start_time` order — the processing sequence is a permutation of
the stored set, nondecreasing in `start_time` — but the order among
reservations with equal start times is unspecified (the query has no
secondary sort key). -/
theorem optimize_processing_order_sorted_by_start (db : List PassSchedule) :
    isOrderByStart db (sortByStart db) :=
  ⟨List.perm_insertionSort startLE db, List.sorted_insertionSort startLE db⟩

/-- Claim C8 (corrected, counterexample): the stored pass 7 is reported as
conflicting (it collides with itself, see claim C2) and the slot search finds
nothing, so by the claim it should be counted in an unresolved count; but the
run's report is `ok 1 0 0 completed` — the only counter besides
`passes_rescheduled`, namely `conflicts_resolved`, stays 0, and no field of
the report counts the unresolved reservation (the pass is, as the claim also
says, left untouched). -/
theorem optimize_report_no_unresolved_count_cex :
    check_temporal_conflicts 100 130 "GS2" 200
        [⟨7, 200, "GS2", 100, 130, "scheduled"⟩] (MinutesArg.int 10) ≠ [] ∧
    find_next_available_slot 100 30 "GS2" 200
        [⟨7, 200, "GS2", 100, 130, "scheduled"⟩] 168 50 = none ∧
    optimize_schedule [⟨7, 200, "GS2", 100, 130, "scheduled"⟩] false false =
      ([⟨7, 200, "GS2", 100, 130, "scheduled"⟩],
        OptimizeReport.ok 1 0 0 optimizeStatusCompleted) :=
  ⟨by decide,
    find_next_available_slot_eq_none 100 30 "GS2" 200
      [⟨7, 200, "GS2", 100, 130, "scheduled"⟩] 168 50,
    optimize_schedule_success [⟨7, 200, "GS2", 100, 130, "scheduled"⟩]⟩

/-- Claim C8 (amended): the report of a successful run contains the total
number of reservations examined, the number rescheduled, the
`conflicts_resolved` counter — which is initialised to 0 and never
incremented — and a terminal status; every conflicting reservation for which
no slot is found is left untouched, but it is counted in no field of the
report (the report has no unresolved count). -/
theorem optimize_report_fields (db : List PassSchedule) :
    (optimize_schedule db false false).1 = db ∧
      ∃ status, (optimize_schedule db false false).2 =
        OptimizeReport.ok db.length 0 0 status := by
  rw [optimize_schedule_success]
  exact ⟨rfl, optimizeStatusCompleted, rfl⟩

/-- Claim C6 (confirmed): for a candidate window and any stored reservation
`r` (well-formed: `start < end`, primary keys distinct), the conflict check
emits a `minimum_separation_violation` of severity medium referencing `r` if
and only if `|r.start - candidate.start| < buffer` — the station keys play no
role and the two windows need not overlap (the buffer-widened query always
contains such an `r`). -/
theorem minimum_separation_violation_iff
    (cand_start cand_end : Int) (gs : String) (sid : Int)
    (db : List PassSchedule) (r : PassSchedule) (cw : Int)
    (hmem : r ∈ db) (hids : (db.map PassSchedule.pass_id).Nodup)
    (hr : r.start_time < r.end_time) (hc : cand_start ≤ cand_end) :
    (∃ c ∈ check_temporal_conflicts cand_start cand_end gs sid db
        (MinutesArg.int cw),
      c.conflict_type = ConflictType.MINIMUM_SEPARATION_VIOLATION ∧
        c.conflicting_pass_id = some r.pass_id ∧ c.severity = "medium") ↔
      |r.start_time - cand_start| < cw := by
  constructor
  · rintro ⟨c, hcm, hty, hid, hsev⟩
    rw [mem_check_temporal_conflicts_int] at hcm
    obtain ⟨p, hp, hw, hor⟩ := hcm
    rcases hor with ⟨hgs, rfl⟩ | ⟨hsep, rfl⟩
    · exact absurd hty (by
        simp [gsConflict, ConflictType.GROUND_STATION_CONFLICT,
          ConflictType.MINIMUM_SEPARATION_VIOLATION])
    · have hpid : p.pass_id = r.pass_id := by simpa [sepConflict] using hid
      have hpr : p = r := List.inj_on_of_nodup_map hids hp hmem hpid
      rwa [hpr] at hsep
  · intro hsep
    have habs := abs_lt.mp hsep
    refine ⟨sepConflict r cand_start cw, ?_, rfl, rfl, rfl⟩
    rw [mem_check_temporal_conflicts_int]
    exact ⟨r, hmem, ⟨by omega, by omega⟩, Or.inr ⟨hsep, rfl⟩⟩

/-- Witness for `minimum_separation_violation_iff`: the stored pass
`[5, 35)` at station GS1 starts 5 minutes from the candidate `[0, 30)` at the
different station GS9, and the violation referencing pass 6 is emitted. -/
theorem minimum_separation_violation_iff_witness :
    ∃ c ∈ check_temporal_conflicts 0 30 "GS9" 300
        [⟨6, 100, "GS1", 5, 35, "scheduled"⟩] (MinutesArg.int 10),
      c.conflict_type = ConflictType.MINIMUM_SEPARATION_VIOLATION ∧
        c.conflicting_pass_id = some 6 ∧ c.severity = "medium" :=
  (minimum_separation_violation_iff 0 30 "GS9" 300
      [⟨6, 100, "GS1", 5, 35, "scheduled"⟩] ⟨6, 100, "GS1", 5, 35, "scheduled"⟩ 10
      (List.mem_singleton_self _) (by decide) (by decide) (by decide)).mpr
    (by decide)

/-- Claim C5 (confirmed): `validate_schedule_creation` returns
`is_valid = true` iff the returned conflict list contains no conflict of
severity high; and each of the three early rejections — unknown satellite,
`start >= end`, start not strictly in the future — yields `is_valid = false`
together with a high-severity conflict, without querying the stored
reservation set: the result is identical for any two stored sets `db`,
`db2`. -/
theorem validate_schedule_creation_valid_iff
    (sid : Int) (gs : String) (s e now : Int)
    (sats : List Satellite) (db db2 : List PassSchedule) :
    ((validate_schedule_creation sid gs s e sats db now).1 = true ↔
      ∀ c ∈ (validate_schedule_creation sid gs s e sats db now).2,
        c.severity ≠ "high") ∧
    (((∀ sat ∈ sats, sat.norad_id ≠ sid) ∨ s ≥ e ∨ s ≤ now) →
      (validate_schedule_creation sid gs s e sats db now).1 = false ∧
      (∃ c ∈ (validate_schedule_creation sid gs s e sats db now).2,
        c.severity = "high") ∧
      validate_schedule_creation sid gs s e sats db now =
        validate_schedule_creation sid gs s e sats db2 now) := by
  rcases hfind : sats.find? (fun sat => decide (sat.norad_id = sid)) with _ | sat0
  · have hres : ∀ dbx : List PassSchedule,
        validate_schedule_creation sid gs s e sats dbx now =
          (false, [satelliteNotFoundConflict sid]) := by
      intro dbx
      unfold validate_schedule_creation
      rw [hfind]
    refine ⟨?_, fun _ => ⟨?_, ?_, ?_⟩⟩
    · rw [hres]
      simp [satelliteNotFoundConflict]
    · rw [hres]
    · rw [hres]
      exact ⟨satelliteNotFoundConflict sid, List.mem_singleton_self _, rfl⟩
    · rw [hres, hres]
  · have hsat : sat0 ∈ sats := List.mem_of_find?_eq_some hfind
    have hsid : sat0.norad_id = sid := by
      have := List.find?_some hfind
      simpa using this
    by_cases h1 : s ≥ e
    · have hres : ∀ dbx : List PassSchedule,
          validate_schedule_creation sid gs s e sats dbx now =
            (false, [startAfterEndConflict]) := by
        intro dbx
        unfold validate_schedule_creation
        rw [hfind]
        simp only [if_pos h1]
      refine ⟨?_, fun _ => ⟨?_, ?_, ?_⟩⟩
      · rw [hres]
        simp [startAfterEndConflict]
      · rw [hres]
      · rw [hres]
        exact ⟨startAfterEndConflict, List.mem_singleton_self _, rfl⟩
      · rw [hres, hres]
    · by_cases h2 : s ≤ now
      · have hres : ∀ dbx : List PassSchedule,
            validate_schedule_creation sid gs s e sats dbx now =
              (false, [startNotFutureConflict]) := by
          intro dbx
          unfold validate_schedule_creation
          rw [hfind]
          simp only [if_neg h1, if_pos h2]
        refine ⟨?_, fun _ => ⟨?_, ?_, ?_⟩⟩
        · rw [hres]
          simp [startNotFutureConflict]
        · rw [hres]
        · rw [hres]
          exact ⟨startNotFutureConflict, List.mem_singleton_self _, rfl⟩
        · rw [hres, hres]
      · have hres : ∀ dbx : List PassSchedule,
            validate_schedule_creation sid gs s e sats dbx now =
              (((check_temporal_conflicts s e gs sid dbx
                    (MinutesArg.int 10)).filter
                  (fun c => c.severity == "high")).length == 0,
                check_temporal_conflicts s e gs sid dbx (MinutesArg.int 10)) := by
          intro dbx
          unfold validate_schedule_creation
          rw [hfind]
          simp only [if_neg h1, if_neg h2]
        constructor
        · rw [hres]
          simp only [beq_iff_eq, List.length_eq_zero, List.filter_eq_nil_iff]
        · rintro (hd | hd | hd)
          · exact absurd hsid (hd sat0 hsat)
          · exact absurd hd h1
          · exact absurd hd h2

/-- Witness for `validate_schedule_creation_valid_iff` at a concrete input
with an unknown satellite: the rejection is `is_valid = false` with a
high-severity conflict, and the result is the same whether the stored set is
empty or holds a pass. -/
theorem validate_schedule_creation_valid_iff_witness :
    (validate_schedule_creation 5 "GS1" 10 20 [] [] 0).1 = false ∧
    (∃ c ∈ (validate_schedule_creation 5 "GS1" 10 20 [] [] 0).2,
      c.severity = "high") ∧
    validate_schedule_creation 5 "GS1" 10 20 [] [] 0 =
      validate_schedule_creation 5 "GS1" 10 20 []
        [⟨9, 5, "GS1", 0, 30, "scheduled"⟩] 0 :=
  (validate_schedule_creation_valid_iff 5 "GS1" 10 20 0 [] []
      [⟨9, 5, "GS1", 0, 30, "scheduled"⟩]).2 (Or.inl (by simp))

end ASCScheduler
